import Mathlib

/-!
# Verification of the proxmox backup checker core

A shallow embedding of the backup validation pipeline of
`src/backup_checker.py`, the result aggregation and notification content
formatting of `src/notification_manager.py`, and the exit-code logic of
`main.py`.  `NotificationManager.send_notifications` itself is not embedded:
the `else` arm at `notification_manager.py` lines 100-107 holds only comment
lines, which Python's grammar rejects (an `else:` suite needs at least one
statement), so that function has no behaviour to model.

External collaborators from the `python_utils` package (filesystem access,
disk usage, directory scanning, notification transports) are modelled as
explicit inputs: each fallible call is an `Except String` value, where
`Except.error e` stands for the call raising an exception with text `e`.
One-decimal percentages are exact rationals; Python's `round(x, 1)` is
rendered as round-half-to-even on rationals.
-/

set_option maxRecDepth 4000

/-! ## Generic helpers -/

/-- Python `sep.join(lines)`. -/
def joinWith (sep : String) : List String → String
  | [] => ""
  | [x] => x
  | x :: y :: xs => x ++ sep ++ joinWith sep (y :: xs)

/-- `s` occurs as a contiguous substring of `t`. -/
def strContains (t s : String) : Prop :=
  ∃ pre post : List Char, t.data = pre ++ s.data ++ post

/-- Python's built-in `round` to an integer: round half to even. -/
def pyRound (q : ℚ) : ℤ :=
  if Int.fract q = 1 / 2 then (if 2 ∣ ⌊q⌋ then ⌊q⌋ else ⌊q⌋ + 1) else round q

/-- Python `round(q, 1)`: round to one decimal place, half to even. -/
def pyRound1 (q : ℚ) : ℚ := (pyRound (q * 10) : ℚ) / 10

/-- Rendering of a rational with one digit after the decimal point, as Python
string formatting with one decimal does. -/
def fmtFixed1 (q : ℚ) : String :=
  let n := pyRound (q * 10)
  toString (n / 10) ++ "." ++ toString (n % 10).natAbs

/-- Rendering of a rational with two digits after the decimal point, as Python
string formatting with two decimals does. -/
def fmtFixed2 (q : ℚ) : String :=
  let n := pyRound (q * 100)
  toString (n / 100) ++ "." ++ toString ((n % 100).natAbs / 10) ++
    toString ((n % 100).natAbs % 10)

/-- Modelled from the spec: `bytes_to_human_readable` of the external
`python_utils` package (its source is not in the repository).  Spec 4.1:
selects the largest unit where the magnitude is at least one, base-1024
multipliers, falling back to bytes below 1024, one decimal place. -/
def bytes_to_human_readable (n : Nat) : String :=
  if n < 1024 then toString n ++ " B"
  else if n < 1024 ^ 2 then fmtFixed1 ((n : ℚ) / 1024) ++ " KB"
  else if n < 1024 ^ 3 then fmtFixed1 ((n : ℚ) / 1024 ^ 2) ++ " MB"
  else if n < 1024 ^ 4 then fmtFixed1 ((n : ℚ) / 1024 ^ 3) ++ " GB"
  else fmtFixed1 ((n : ℚ) / 1024 ^ 4) ++ " TB"

/-- Modelled from the spec: `check_minimum_free_space` of the external
`python_utils` package (its source is not in the repository).  Spec 4.3:
sufficient exactly when the measured free bytes reach the minimum; the
failure message references the measured free space against the minimum. -/
def check_minimum_free_space (free min_bytes : Nat) : Bool × String :=
  if min_bytes ≤ free then (true, "")
  else
    (false,
     "Free space " ++ bytes_to_human_readable free ++ " is below minimum required " ++
       bytes_to_human_readable min_bytes ++ " (short by " ++
       bytes_to_human_readable (min_bytes - free) ++ ")")

/-! ## Data model -/

/-- One `(file_path, file_size, modification_timestamp)` tuple as returned by
`get_files_modified_within_days`. -/
structure FileEntry where
  path : String
  size_bytes : Nat
  modified_time : ℚ
  deriving DecidableEq

/-- One entry of the `file_details` list built in `check_backup_freshness`. -/
structure FileDetail where
  path : String
  size_bytes : Nat
  size_human : String
  modified_time : ℚ
  deriving DecidableEq

/-- The `space_info` dictionary built in `check_free_space`. -/
structure SpaceInfo where
  total_bytes : Nat
  used_bytes : Nat
  free_bytes : Nat
  total_human : String
  used_human : String
  free_human : String
  min_required_human : String
  usage_percent : ℚ
  deriving DecidableEq

/-- The `backup_info` dictionary built in `check_backup_freshness`.  In the
zero-files branch the Python dictionary carries no `files` key, rendered here
as `files = none`. -/
structure BackupInfo where
  file_count : Nat
  total_size_bytes : Nat
  total_size_human : String
  files : Option (List FileDetail)
  oldest_file : Option FileDetail
  newest_file : Option FileDetail
  min_required_human : String
  deriving DecidableEq

/-- `BackupCheckConfig` from `python_utils` as consumed by the checker: one
target.  `min_size_bytes` stands for `get_min_size_bytes()`; the spec data
model gives every target the human string and the derived byte count. -/
structure BackupCheckConfig where
  name : String
  backup_dir : String
  days : Nat
  min_size : String
  min_size_bytes : Nat
  deriving DecidableEq

/-- The per-target `result` dictionary built in `run_all_checks`.  The
optional `space` and `backup` records are `none` when the respective key is
absent or the probe returned an empty dictionary; `error` is `none` when the
`error` key was never set. -/
structure CheckResult where
  name : String
  backup_dir : String
  success : Bool
  errors : List String
  warnings : List String
  space : Option SpaceInfo
  backup : Option BackupInfo
  error : Option String
  deriving DecidableEq

/-- The outcomes of the external filesystem calls made while checking one
target: `is_directory_accessible`, `get_disk_usage` (total, used, free bytes)
and `get_files_modified_within_days`. -/
structure TargetEnv where
  access : Except String Bool
  disk : Except String (Nat × Nat × Nat)
  recent : Except String (List FileEntry)

/-! ## The probes (`src/backup_checker.py`) -/

/-- `BackupChecker.check_directory_accessibility`: wraps
`is_directory_accessible`, converting an exception into a `(false, message)`
result. -/
def check_directory_accessibility (backup_dir : String) (access : Except String Bool) :
    Bool × String :=
  match access with
  | .error e => (false, "Error checking directory accessibility " ++ backup_dir ++ ": " ++ e)
  | .ok accessible =>
    if accessible then (true, "")
    else (false, "Directory not accessible or not mounted: " ++ backup_dir)

/-- `BackupChecker.check_free_space`: parses the global minimum, compares the
measured free space against it, and reports the disk usage record; any
exception yields `(false, message)` with an empty record. -/
def check_free_space (backup_dir : String) (parsed_min : Except String Nat)
    (disk : Except String (Nat × Nat × Nat)) : Bool × String × Option SpaceInfo :=
  match parsed_min with
  | .error e => (false, "Error checking free space for " ++ backup_dir ++ ": " ++ e, none)
  | .ok min_bytes =>
    match disk with
    | .error e => (false, "Error checking free space for " ++ backup_dir ++ ": " ++ e, none)
    | .ok (total, used, free) =>
      let hm := check_minimum_free_space free min_bytes
      let space_info : SpaceInfo :=
        { total_bytes := total, used_bytes := used, free_bytes := free,
          total_human := bytes_to_human_readable total,
          used_human := bytes_to_human_readable used,
          free_human := bytes_to_human_readable free,
          min_required_human := bytes_to_human_readable min_bytes,
          usage_percent :=
            if 0 < total then pyRound1 ((used : ℚ) / (total : ℚ) * 100) else 0 }
      if hm.1 then (true, "", some space_info)
      else (false, hm.2, some space_info)

/-- The record pushed onto `file_details` for one recent file. -/
def fileDetailOf (f : FileEntry) : FileDetail :=
  { path := f.path, size_bytes := f.size_bytes,
    size_human := bytes_to_human_readable f.size_bytes,
    modified_time := f.modified_time }

/-- One insertion step of the stable descending sort on modification time. -/
def insertByMTimeDesc (a : FileDetail) : List FileDetail → List FileDetail
  | [] => [a]
  | b :: l =>
    if b.modified_time ≤ a.modified_time then a :: b :: l
    else b :: insertByMTimeDesc a l

/-- Python's stable `file_details.sort(key=modified_time, reverse=True)`:
stable sort into descending modification-time order. -/
def sortByMTimeDesc : List FileDetail → List FileDetail
  | [] => []
  | x :: xs => insertByMTimeDesc x (sortByMTimeDesc xs)

/-- `BackupChecker.check_backup_freshness`: validates the aggregate size of
the files modified within the day window; any exception yields
`(false, message)` with an empty record. -/
def check_backup_freshness (cfg : BackupCheckConfig)
    (recent : Except String (List FileEntry)) : Bool × String × Option BackupInfo :=
  match recent with
  | .error e =>
    (false, "Error checking backup freshness for " ++ cfg.backup_dir ++ ": " ++ e, none)
  | .ok recent_files =>
    if recent_files.isEmpty then
      (false,
       "No files found modified within " ++ toString cfg.days ++ " days in " ++ cfg.backup_dir,
       some { file_count := 0, total_size_bytes := 0, total_size_human := "0 B",
              files := none, oldest_file := none, newest_file := none,
              min_required_human := cfg.min_size })
    else
      let total_size := (recent_files.map (fun f => f.size_bytes)).sum
      let file_details := sortByMTimeDesc (recent_files.map fileDetailOf)
      let backup_info : BackupInfo :=
        { file_count := file_details.length,
          total_size_bytes := total_size,
          total_size_human := bytes_to_human_readable total_size,
          files := some (file_details.take 5),
          oldest_file := file_details.getLast?,
          newest_file := file_details.head?,
          min_required_human := cfg.min_size }
      if total_size < cfg.min_size_bytes then
        (false,
         "Backup size " ++ bytes_to_human_readable total_size ++
           " is below minimum requirement " ++ cfg.min_size,
         some backup_info)
      else (true, "", some backup_info)

/-! ## The orchestrator (`BackupChecker.run_all_checks`) -/

/-- One iteration of the target loop in `run_all_checks`: accessibility first
with short-circuit to the next target, then free space and freshness, errors
accumulated in probe order and joined into the `error` summary on failure. -/
def runTarget (parsed_min : Except String Nat) (cfg : BackupCheckConfig)
    (env : TargetEnv) : CheckResult :=
  let acc := check_directory_accessibility cfg.backup_dir env.access
  if acc.1 then
    let sp := check_free_space cfg.backup_dir parsed_min env.disk
    let fr := check_backup_freshness cfg env.recent
    let errors :=
      (if sp.1 then [] else ["Insufficient free space: " ++ sp.2.1]) ++
        (if fr.1 then [] else ["Backup validation failed: " ++ fr.2.1])
    { name := cfg.name, backup_dir := cfg.backup_dir,
      success := sp.1 && fr.1, errors := errors, warnings := [],
      space := sp.2.2, backup := fr.2.2,
      error := if sp.1 && fr.1 then none else some (joinWith "; " errors) }
  else
    { name := cfg.name, backup_dir := cfg.backup_dir, success := false,
      errors := ["Directory not accessible: " ++ acc.2], warnings := [],
      space := none, backup := none, error := some acc.2 }

/-- `BackupChecker.run_all_checks`: the loop over the configured targets,
each paired with the outcomes of its own filesystem probes. -/
def run_all_checks (parsed_min : Except String Nat)
    (targets : List (BackupCheckConfig × TargetEnv)) : List CheckResult :=
  targets.map (fun t => runTarget parsed_min t.1 t.2)

/-! ## Result aggregation (`src/notification_manager.py`) -/

/-- Count of successful results (`successful_backups` in the notification
manager and in `main`). -/
def success_count (results : List CheckResult) : Nat :=
  (results.filter (fun r => r.success)).length

/-- Count of failed results (`failed_backups` in the notification manager). -/
def failure_count (results : List CheckResult) : Nat :=
  (results.filter (fun r => !r.success)).length

/-! ## Notification content formatting

`NotificationManager.send_notifications` (lines 62-109) is not modelled:
its `else` arm at lines 100-107 contains only comment lines, and Python
requires at least one statement in an `else:` suite, so the module does
not parse and the function has no behaviour to embed.  The content
formatter `_create_email_content` below is a syntactically intact part of
the module. -/

/-- The outcomes of the external notification transports: the email send and
the Pushover send.  Carried by `main`'s environment; the exit code ignores
them. -/
structure NotifyEnv where
  email_ok : Bool
  push_ok : Bool
  deriving DecidableEq

/-- A 50-character separator row, Python `"=" * 50`. -/
def sep50 : String := String.mk (List.replicate 50 '=')

/-- The free-space line of one backup detail block in the email body: the
displayed free percentage is one hundred minus the stored usage percent. -/
def email_space_line (si : SpaceInfo) : String :=
  "   Free space: " ++ si.free_human ++ " (" ++ fmtFixed1 (100 - si.usage_percent) ++
    "% free)"

/-- The detail block the email body devotes to result `r` at zero-based
position `i` (Python enumerates from one). -/
def email_result_block (i : Nat) (r : CheckResult) : List String :=
  [toString (i + 1) ++ ". " ++ r.name ++ " - " ++
     (if r.success then "✅ PASSED" else "❌ FAILED"),
   "   Directory: " ++ r.backup_dir] ++
  (match r.backup with
   | some bi => ["   Files: " ++ toString bi.file_count ++ ", Size: " ++ bi.total_size_human]
   | none => []) ++
  (match r.space with
   | some si => [email_space_line si]
   | none => []) ++
  (if r.success then [] else ["   ❌ Error: " ++ r.error.getD "Unknown error"]) ++
  [""]

/-- The per-failed-target lines of the failed-backups summary, one line per
failed result, in result order. -/
def email_failed_lines (results : List CheckResult) : List String :=
  results.flatMap
    (fun r => if r.success then [] else ["• " ++ r.name ++ ": " ++ r.error.getD "Unknown error"])

/-- The failed-backups summary section, present exactly when at least one
backup failed. -/
def email_summary_section (results : List CheckResult) : List String :=
  if 0 < results.length - success_count results then
    ["FAILED BACKUPS SUMMARY", sep50] ++ email_failed_lines results ++ [""]
  else []

/-- The header block of the email body. -/
def email_header (results : List CheckResult) (duration : ℚ)
    (timestamp : String) : List String :=
  ["PROXMOX BACKUP CHECK REPORT", sep50,
   "Timestamp: " ++ timestamp,
   "Duration: " ++ fmtFixed2 duration ++ " seconds",
   "Total backups checked: " ++ toString results.length,
   "Successful: " ++ toString (success_count results),
   "Failed: " ++ toString (results.length - success_count results),
   "", "BACKUP DETAILS", sep50]

/-- The footer block of the email body. -/
def email_footer (timestamp : String) : List String :=
  [sep50, "Generated by Proxmox Backup Checker", "Report time: " ++ timestamp]

/-- All lines of the email body, in order: header, one detail block per
result, the failed-backups summary, the footer. -/
def email_lines (results : List CheckResult) (duration : ℚ)
    (timestamp : String) : List String :=
  email_header results duration timestamp ++
    (results.mapIdx email_result_block).flatten ++
    email_summary_section results ++ email_footer timestamp

/-- `NotificationManager._create_email_content`: the subject and the body of
the summary email. -/
def create_email_content (results : List CheckResult) (duration : ℚ)
    (timestamp : String) : String × String :=
  let total_backups := results.length
  let failed_backups := total_backups - success_count results
  let subject :=
    if 0 < failed_backups then
      "⚠️ Backup Check Alert - " ++ toString failed_backups ++ "/" ++
        toString total_backups ++ " Failed"
    else
      "✅ Backup Check Success - All " ++ toString total_backups ++ " Passed"
  (subject, joinWith "\n" (email_lines results duration timestamp))

/-! ## The entry point (`main.py`) -/

/-- The situations `main` distinguishes: a keyboard interrupt, a fatal
unhandled error, a missing configuration file, a configuration that fails
validation, or a completed run over the configured targets with the
notification outcomes. -/
inductive MainEnv where
  | interrupted : MainEnv
  | fatal : String → MainEnv
  | missing_config : MainEnv
  | bad_config : String → MainEnv
  | run : List (BackupCheckConfig × TargetEnv) → Except String Nat → NotifyEnv → MainEnv

/-- `main` of `main.py`, reduced to its exit code: 1 on any abort before
results exist; after a completed run, 1 exactly when some target failed,
regardless of the notification outcomes.  (Lean reserves the name `main`
for executable entry points, hence `mainExit`.) -/
def mainExit : MainEnv → Nat
  | .interrupted => 1
  | .fatal _ => 1
  | .missing_config => 1
  | .bad_config _ => 1
  | .run targets parsed_min _notify =>
    let check_results := run_all_checks parsed_min targets
    let total_backups := targets.length
    let successful_backups := success_count check_results
    let failed_backups := total_backups - successful_backups
    if 0 < failed_backups then 1 else 0

/-! ## Helper lemmas -/

theorem success_count_add_failure_count (l : List CheckResult) :
    success_count l + failure_count l = l.length := by
  induction l with
  | nil => rfl
  | cons a t ih =>
    by_cases h : a.success = true <;>
      simp [success_count, failure_count, List.filter_cons, h] at * <;> omega

theorem success_count_le (l : List CheckResult) : success_count l ≤ l.length :=
  List.length_filter_le _ l

theorem success_count_eq_length_iff (l : List CheckResult) :
    success_count l = l.length ↔ ∀ r ∈ l, r.success = true := by
  rw [success_count, List.filter_length_eq_length]

theorem failure_count_eq (l : List CheckResult) :
    failure_count l = l.length - success_count l := by
  have := success_count_add_failure_count l
  omega

theorem length_insertByMTimeDesc (a : FileDetail) (l : List FileDetail) :
    (insertByMTimeDesc a l).length = l.length + 1 := by
  induction l with
  | nil => rfl
  | cons b t ih =>
    by_cases h : b.modified_time ≤ a.modified_time <;>
      simp [insertByMTimeDesc, h, ih]

theorem length_sortByMTimeDesc (l : List FileDetail) :
    (sortByMTimeDesc l).length = l.length := by
  induction l with
  | nil => rfl
  | cons x xs ih => simp [sortByMTimeDesc, length_insertByMTimeDesc, ih]

theorem strContains_self (s : String) : strContains s s :=
  ⟨[], [], by simp⟩

theorem strContains_append_left (a t s : String) (h : strContains t s) :
    strContains (a ++ t) s := by
  obtain ⟨p, q, hd⟩ := h
  exact ⟨a.data ++ p, q, by simp [String.data_append, hd]⟩

theorem strContains_append_right (t b s : String) (h : strContains t s) :
    strContains (t ++ b) s := by
  obtain ⟨p, q, hd⟩ := h
  exact ⟨p, q ++ b.data, by simp [String.data_append, hd]⟩

theorem strContains_trans (t s u : String) (h1 : strContains t s)
    (h2 : strContains s u) : strContains t u := by
  obtain ⟨p1, q1, hd1⟩ := h1
  obtain ⟨p2, q2, hd2⟩ := h2
  exact ⟨p1 ++ p2, q2 ++ q1, by simp [hd1, hd2]⟩

theorem strContains_joinWith (sep : String) (l : List String) (s : String)
    (h : s ∈ l) : strContains (joinWith sep l) s := by
  induction l with
  | nil => cases h
  | cons x t ih =>
    cases t with
    | nil =>
      have : s = x := by simpa using h
      subst this
      exact strContains_self s
    | cons y u =>
      rcases List.mem_cons.mp h with h1 | h2
      · subst h1
        show strContains (s ++ sep ++ joinWith sep (y :: u)) s
        exact strContains_append_right _ _ _ (strContains_append_right _ _ _ (strContains_self s))
      · show strContains (x ++ sep ++ joinWith sep (y :: u)) s
        exact strContains_append_left _ _ _ (ih h2)

theorem email_failed_lines_eq (results : List CheckResult) :
    email_failed_lines results =
      (results.filter (fun r => !r.success)).map
        (fun r => "• " ++ r.name ++ ": " ++ r.error.getD "Unknown error") := by
  induction results with
  | nil => rfl
  | cons a t ih =>
    by_cases h : a.success = true <;>
      simp [email_failed_lines, List.filter_cons, h] at * <;> simpa using ih

theorem pyRound_intCast (n : ℤ) : pyRound ((n : ℚ)) = n := by
  rw [pyRound, Int.fract_intCast]
  norm_num [round_intCast]

theorem pyRound1_eq_of_mul_ten (q : ℚ) (n : ℤ) (h : q * 10 = (n : ℚ)) :
    pyRound1 q = (n : ℚ) / 10 := by
  rw [pyRound1, h, pyRound_intCast]

theorem runTarget_success_iff_errors (parsed_min : Except String Nat)
    (cfg : BackupCheckConfig) (env : TargetEnv) :
    ((runTarget parsed_min cfg env).success = true ↔
      (runTarget parsed_min cfg env).errors = []) := by
  unfold runTarget
  by_cases hacc : (check_directory_accessibility cfg.backup_dir env.access).1 = true
  · by_cases hsp : (check_free_space cfg.backup_dir parsed_min env.disk).1 = true <;>
    by_cases hfr : (check_backup_freshness cfg env.recent).1 = true <;>
      simp [hacc, hsp, hfr]
  · simp [hacc]

/-! ## Concrete fixtures used by witnesses -/

/-- A concrete target configuration (the spec scenario target). -/
def cfgA : BackupCheckConfig :=
  { name := "vm-101", backup_dir := "/mnt/backups/vm-101", days := 7,
    min_size := "5 GB", min_size_bytes := 5368709120 }

/-- A target whose directory is not accessible. -/
def envInaccessible : TargetEnv :=
  { access := Except.ok false, disk := Except.ok (0, 0, 0), recent := Except.ok [] }

/-- An accessible target directory with no recent files (100 GB disk, half
used). -/
def envEmptyDir : TargetEnv :=
  { access := Except.ok true,
    disk := Except.ok (107374182400, 53687091200, 53687091200),
    recent := Except.ok [] }

/-- Three qualifying files totalling 2 GB (the spec scenario against a 5 GB
minimum). -/
def filesSmall : List FileEntry :=
  [{ path := "vzdump-qemu-101-a.vma.zst", size_bytes := 1073741824, modified_time := 300 },
   { path := "vzdump-qemu-101-b.vma.zst", size_bytes := 536870912, modified_time := 100 },
   { path := "vzdump-qemu-101-c.vma.zst", size_bytes := 536870912, modified_time := 200 }]

/-! ## Claim theorems -/

/-- C1: every `CheckResult` produced by `run_all_checks` succeeds exactly
when its error list is empty, and over the whole result list the success
count plus the failure count equals the total count. -/
theorem C1_orchestrator_invariants (parsed_min : Except String Nat)
    (targets : List (BackupCheckConfig × TargetEnv)) (r : CheckResult)
    (hr : r ∈ run_all_checks parsed_min targets) :
    (r.success = true ↔ r.errors = []) ∧
    success_count (run_all_checks parsed_min targets) +
        failure_count (run_all_checks parsed_min targets) =
      (run_all_checks parsed_min targets).length := by
  constructor
  · rw [run_all_checks] at hr
    obtain ⟨t, _, rfl⟩ := List.mem_map.mp hr
    exact runTarget_success_iff_errors parsed_min t.1 t.2
  · exact success_count_add_failure_count _

/-- Witness for C1: the invariant holds for the concrete result of a run over
one inaccessible target. -/
theorem C1_orchestrator_invariants_witness :
    runTarget (Except.ok 1024) cfgA envInaccessible ∈
        run_all_checks (Except.ok 1024) [(cfgA, envInaccessible)] ∧
    ((runTarget (Except.ok 1024) cfgA envInaccessible).success = true ↔
      (runTarget (Except.ok 1024) cfgA envInaccessible).errors = []) := by
  have hm : runTarget (Except.ok 1024) cfgA envInaccessible ∈
      run_all_checks (Except.ok 1024) [(cfgA, envInaccessible)] :=
    List.mem_singleton_self _
  exact ⟨hm, (C1_orchestrator_invariants (Except.ok 1024) [(cfgA, envInaccessible)] _ hm).1⟩

/-- C2: when the accessibility probe fails for a target, the orchestrator
records only the accessibility error, marks the result unsuccessful, leaves
both info records empty, ignores the other probes' inputs entirely, and
processes the remaining targets unchanged. -/
theorem C2_accessibility_short_circuit (parsed_min : Except String Nat)
    (cfg : BackupCheckConfig) (env : TargetEnv)
    (h : (check_directory_accessibility cfg.backup_dir env.access).1 = false) :
    (runTarget parsed_min cfg env).success = false ∧
    (runTarget parsed_min cfg env).errors =
      ["Directory not accessible: " ++
        (check_directory_accessibility cfg.backup_dir env.access).2] ∧
    (runTarget parsed_min cfg env).error =
      some (check_directory_accessibility cfg.backup_dir env.access).2 ∧
    (runTarget parsed_min cfg env).space = none ∧
    (runTarget parsed_min cfg env).backup = none ∧
    (∀ env' : TargetEnv, env'.access = env.access →
      runTarget parsed_min cfg env' = runTarget parsed_min cfg env) ∧
    (∀ rest : List (BackupCheckConfig × TargetEnv),
      run_all_checks parsed_min ((cfg, env) :: rest) =
        runTarget parsed_min cfg env :: run_all_checks parsed_min rest) := by
  refine ⟨?_, ?_, ?_, ?_, ?_, ?_, ?_⟩
  · simp [runTarget, h]
  · simp [runTarget, h]
  · simp [runTarget, h]
  · simp [runTarget, h]
  · simp [runTarget, h]
  · intro env' he
    simp [runTarget, he, h]
  · intro rest
    simp [run_all_checks]

/-- Witness for C2 at the concrete inaccessible target. -/
theorem C2_accessibility_short_circuit_witness :
    (check_directory_accessibility cfgA.backup_dir envInaccessible.access).1 = false ∧
    (runTarget (Except.ok 1024) cfgA envInaccessible).success = false ∧
    (runTarget (Except.ok 1024) cfgA envInaccessible).space = none ∧
    (runTarget (Except.ok 1024) cfgA envInaccessible).backup = none := by
  have h : (check_directory_accessibility cfgA.backup_dir envInaccessible.access).1 = false :=
    rfl
  have hc := C2_accessibility_short_circuit (Except.ok 1024) cfgA envInaccessible h
  exact ⟨h, hc.1, hc.2.2.2.1, hc.2.2.2.2.1⟩

/-- C4: each probe converts an exceptional outcome of its external calls into
a normal `(false, message)` result with an empty info record, and the
orchestrator yields exactly one result per target. -/
theorem C4_probes_never_raise :
    (∀ dir e : String,
      check_directory_accessibility dir (Except.error e) =
        (false, "Error checking directory accessibility " ++ dir ++ ": " ++ e)) ∧
    (∀ (dir e : String) (disk : Except String (Nat × Nat × Nat)),
      check_free_space dir (Except.error e) disk =
        (false, "Error checking free space for " ++ dir ++ ": " ++ e, none)) ∧
    (∀ (dir : String) (min_bytes : Nat) (e : String),
      check_free_space dir (Except.ok min_bytes) (Except.error e) =
        (false, "Error checking free space for " ++ dir ++ ": " ++ e, none)) ∧
    (∀ (cfg : BackupCheckConfig) (e : String),
      check_backup_freshness cfg (Except.error e) =
        (false, "Error checking backup freshness for " ++ cfg.backup_dir ++ ": " ++ e,
         none)) ∧
    (∀ (parsed_min : Except String Nat) (targets : List (BackupCheckConfig × TargetEnv)),
      (run_all_checks parsed_min targets).length = targets.length) := by
  refine ⟨fun dir e => rfl, fun dir e disk => rfl, fun dir m e => rfl,
    fun cfg e => rfl, fun pm ts => ?_⟩
  simp [run_all_checks]

/-- C3: with at least one qualifying file, the freshness probe counts and
sums ALL qualifying files, keeps only the first five of the
descending-by-modification-time ordering for the report, is valid exactly
when the full sum reaches the minimum size in bytes, and on failure states
the measured total against the requirement. -/
theorem C3_freshness_validation (cfg : BackupCheckConfig) (files : List FileEntry)
    (h : files ≠ []) :
    ∃ bi : BackupInfo,
      (check_backup_freshness cfg (Except.ok files)).2.2 = some bi ∧
      bi.file_count = files.length ∧
      bi.total_size_bytes = (files.map (fun f => f.size_bytes)).sum ∧
      bi.files = some ((sortByMTimeDesc (files.map fileDetailOf)).take 5) ∧
      ((check_backup_freshness cfg (Except.ok files)).1 = true ↔
        cfg.min_size_bytes ≤ (files.map (fun f => f.size_bytes)).sum) ∧
      ((check_backup_freshness cfg (Except.ok files)).1 = false →
        (check_backup_freshness cfg (Except.ok files)).2.1 =
          "Backup size " ++
            bytes_to_human_readable ((files.map (fun f => f.size_bytes)).sum) ++
            " is below minimum requirement " ++ cfg.min_size) := by
  have hne : files.isEmpty = false := by simp [h]
  have hsome : (check_backup_freshness cfg (Except.ok files)).2.2 =
      some { file_count := (sortByMTimeDesc (files.map fileDetailOf)).length,
             total_size_bytes := (files.map (fun f => f.size_bytes)).sum,
             total_size_human :=
               bytes_to_human_readable ((files.map (fun f => f.size_bytes)).sum),
             files := some ((sortByMTimeDesc (files.map fileDetailOf)).take 5),
             oldest_file := (sortByMTimeDesc (files.map fileDetailOf)).getLast?,
             newest_file := (sortByMTimeDesc (files.map fileDetailOf)).head?,
             min_required_human := cfg.min_size } := by
    by_cases hlt : (files.map (fun f => f.size_bytes)).sum < cfg.min_size_bytes <;>
      simp [check_backup_freshness, hne, hlt]
  refine ⟨_, hsome, ?_, rfl, rfl, ?_, ?_⟩
  · simp [length_sortByMTimeDesc]
  · by_cases hlt : (files.map (fun f => f.size_bytes)).sum < cfg.min_size_bytes
    · simp only [check_backup_freshness, hne, Bool.false_eq_true, if_false, hlt, if_true]
      simpa using Nat.not_le.mpr hlt
    · simp only [check_backup_freshness, hne, Bool.false_eq_true, if_false, hlt, if_false]
      simpa using Nat.not_lt.mp hlt
  · intro hfalse
    by_cases hlt : (files.map (fun f => f.size_bytes)).sum < cfg.min_size_bytes
    · simp [check_backup_freshness, hne, hlt]
    · exfalso
      simp [check_backup_freshness, hne, hlt] at hfalse

/-- Witness for C3: three qualifying files summing to 2 GB against a 5 GB
minimum make the probe invalid with a counted total of three files. -/
theorem C3_freshness_validation_witness :
    filesSmall ≠ [] ∧
    ∃ bi : BackupInfo,
      (check_backup_freshness cfgA (Except.ok filesSmall)).2.2 = some bi ∧
      bi.file_count = filesSmall.length ∧
      bi.total_size_bytes = (filesSmall.map (fun f => f.size_bytes)).sum ∧
      bi.files = some ((sortByMTimeDesc (filesSmall.map fileDetailOf)).take 5) ∧
      ((check_backup_freshness cfgA (Except.ok filesSmall)).1 = true ↔
        cfgA.min_size_bytes ≤ (filesSmall.map (fun f => f.size_bytes)).sum) ∧
      ((check_backup_freshness cfgA (Except.ok filesSmall)).1 = false →
        (check_backup_freshness cfgA (Except.ok filesSmall)).2.1 =
          "Backup size " ++
            bytes_to_human_readable ((filesSmall.map (fun f => f.size_bytes)).sum) ++
            " is below minimum requirement " ++ cfgA.min_size) :=
  ⟨by decide, C3_freshness_validation cfgA filesSmall (by decide)⟩

/-- C6: the free-space probe reports sufficient exactly when the measured
free bytes reach the parsed minimum, and stores a usage percent of
`round(used / total * 100, 1)` for a positive total and `0` for a zero
total; at 100 GB total with 50 GB used the stored percent is exactly 50. -/
theorem C6_free_space_probe (dir : String) (min_bytes total used free : Nat) :
    ((check_free_space dir (Except.ok min_bytes) (Except.ok (total, used, free))).1 = true ↔
      min_bytes ≤ free) ∧
    (∃ si : SpaceInfo,
      (check_free_space dir (Except.ok min_bytes) (Except.ok (total, used, free))).2.2 =
        some si ∧
      si.total_bytes = total ∧ si.used_bytes = used ∧ si.free_bytes = free ∧
      si.usage_percent =
        (if 0 < total then pyRound1 ((used : ℚ) / (total : ℚ) * 100) else 0)) ∧
    pyRound1 ((53687091200 : ℚ) / (107374182400 : ℚ) * 100) = 50 := by
  refine ⟨?_, ?_, ?_⟩
  · by_cases hs : min_bytes ≤ free <;>
      simp [check_free_space, check_minimum_free_space, hs]
  · have hsome : (check_free_space dir (Except.ok min_bytes)
        (Except.ok (total, used, free))).2.2 =
        some { total_bytes := total, used_bytes := used, free_bytes := free,
               total_human := bytes_to_human_readable total,
               used_human := bytes_to_human_readable used,
               free_human := bytes_to_human_readable free,
               min_required_human := bytes_to_human_readable min_bytes,
               usage_percent :=
                 if 0 < total then pyRound1 ((used : ℚ) / (total : ℚ) * 100) else 0 } := by
      by_cases hs : min_bytes ≤ free <;>
        simp [check_free_space, check_minimum_free_space, hs]
    exact ⟨_, hsome, rfl, rfl, rfl, rfl⟩
  · have h : (53687091200 : ℚ) / (107374182400 : ℚ) * 100 * 10 = ((500 : ℤ) : ℚ) := by
      norm_num
    rw [pyRound1_eq_of_mul_ten _ _ h]
    norm_num

/-- Witness for C6: the sufficiency equivalence evaluated at the concrete
half-used 100 GB disk. -/
theorem C6_free_space_probe_witness :
    ((check_free_space "/mnt/backups/vm-101" (Except.ok 53687091200)
        (Except.ok (107374182400, 53687091200, 53687091200))).1 = true ↔
      (53687091200 : Nat) ≤ 53687091200) :=
  (C6_free_space_probe "/mnt/backups/vm-101" 53687091200 107374182400 53687091200
    53687091200).1

/-- C7: an accessible directory with zero qualifying files makes the
freshness probe invalid with a message naming the day window, a zeroed
report with null oldest and newest references, and an unsuccessful result
whose error summary contains the no-files message. -/
theorem C7_no_recent_files (parsed_min : Except String Nat) (cfg : BackupCheckConfig)
    (env : TargetEnv) (hacc : env.access = Except.ok true)
    (hrec : env.recent = Except.ok []) :
    check_backup_freshness cfg env.recent =
      (false,
       "No files found modified within " ++ toString cfg.days ++ " days in " ++
         cfg.backup_dir,
       some { file_count := 0, total_size_bytes := 0, total_size_human := "0 B",
              files := none, oldest_file := none, newest_file := none,
              min_required_human := cfg.min_size }) ∧
    (runTarget parsed_min cfg env).success = false ∧
    (∃ s : String, (runTarget parsed_min cfg env).error = some s ∧
      strContains s
        ("No files found modified within " ++ toString cfg.days ++ " days in " ++
          cfg.backup_dir)) := by
  have h1 : check_backup_freshness cfg env.recent =
      (false,
       "No files found modified within " ++ toString cfg.days ++ " days in " ++
         cfg.backup_dir,
       some { file_count := 0, total_size_bytes := 0, total_size_human := "0 B",
              files := none, oldest_file := none, newest_file := none,
              min_required_human := cfg.min_size }) := by
    rw [hrec]
    rfl
  refine ⟨h1, ?_, ?_⟩
  · simp [runTarget, hacc, check_directory_accessibility, h1]
  · refine ⟨joinWith "; "
      ((if (check_free_space cfg.backup_dir parsed_min env.disk).1 then []
        else ["Insufficient free space: " ++
          (check_free_space cfg.backup_dir parsed_min env.disk).2.1]) ++
        ["Backup validation failed: " ++
          ("No files found modified within " ++ toString cfg.days ++ " days in " ++
            cfg.backup_dir)]), ?_, ?_⟩
    · simp [runTarget, hacc, check_directory_accessibility, h1]
    · apply strContains_trans _ _ _
        (strContains_joinWith "; " _ _ (List.mem_append_right _ (List.mem_singleton_self _)))
      exact strContains_append_left _ _ _ (strContains_self _)

/-- Witness for C7 at the concrete accessible-but-empty target directory. -/
theorem C7_no_recent_files_witness :
    envEmptyDir.access = Except.ok true ∧ envEmptyDir.recent = Except.ok [] ∧
    ((runTarget (Except.ok 53687091200) cfgA envEmptyDir).success = false ∧
      ∃ s : String, (runTarget (Except.ok 53687091200) cfgA envEmptyDir).error = some s ∧
        strContains s
          ("No files found modified within " ++ toString cfgA.days ++ " days in " ++
            cfgA.backup_dir)) := by
  have hc := C7_no_recent_files (Except.ok 53687091200) cfgA envEmptyDir rfl rfl
  exact ⟨rfl, rfl, hc.2.1, hc.2.2⟩

/-- C8: the exit code of a completed run is zero exactly when every target
passed, is independent of the notification outcomes, and is always zero or
one; every abort before results exist exits with one. -/
theorem C8_exit_code :
    (∀ (targets : List (BackupCheckConfig × TargetEnv)) (parsed_min : Except String Nat)
        (notify : NotifyEnv),
      (mainExit (MainEnv.run targets parsed_min notify) = 0 ↔
        ∀ r ∈ run_all_checks parsed_min targets, r.success = true) ∧
      (∀ notify' : NotifyEnv,
        mainExit (MainEnv.run targets parsed_min notify) =
          mainExit (MainEnv.run targets parsed_min notify')) ∧
      (mainExit (MainEnv.run targets parsed_min notify) = 0 ∨
        mainExit (MainEnv.run targets parsed_min notify) = 1)) ∧
    mainExit MainEnv.interrupted = 1 ∧
    mainExit MainEnv.missing_config = 1 ∧
    (∀ e, mainExit (MainEnv.fatal e) = 1) ∧
    (∀ e, mainExit (MainEnv.bad_config e) = 1) := by
  refine ⟨?_, rfl, rfl, fun e => rfl, fun e => rfl⟩
  intro targets pm notify
  have hlen : (run_all_checks pm targets).length = targets.length := by
    simp [run_all_checks]
  have hle : success_count (run_all_checks pm targets) ≤ targets.length := by
    have h := success_count_le (run_all_checks pm targets)
    omega
  have hiff := success_count_eq_length_iff (run_all_checks pm targets)
  rw [hlen] at hiff
  refine ⟨?_, fun notify' => rfl, ?_⟩
  · simp only [mainExit]
    constructor
    · intro h0
      by_cases hf : 0 < targets.length - success_count (run_all_checks pm targets)
      · simp [hf] at h0
      · exact hiff.mp (by omega)
    · intro hall
      have heq : success_count (run_all_checks pm targets) = targets.length :=
        hiff.mpr hall
      simp [heq]
  · simp only [mainExit]
    by_cases hf : 0 < targets.length - success_count (run_all_checks pm targets) <;>
      simp [hf]

/-- Witness for C8: the equivalence at a concrete one-target run. -/
theorem C8_exit_code_witness :
    mainExit (MainEnv.run [(cfgA, envInaccessible)] (Except.ok 1024) ⟨false, false⟩) = 0 ↔
      ∀ r ∈ run_all_checks (Except.ok 1024) [(cfgA, envInaccessible)], r.success = true :=
  (C8_exit_code.1 [(cfgA, envInaccessible)] (Except.ok 1024) ⟨false, false⟩).1

/-- C9: with at least one failure the subject is the failure glyph with
counts, otherwise the success glyph with the total; the failed-summary
section holds exactly one entry per failed target, is omitted entirely when
there are none, and each failed target's entry occurs in the body. -/
theorem C9_email_subject_and_summary (results : List CheckResult) (duration : ℚ)
    (ts : String) :
    (0 < results.length - success_count results →
      (create_email_content results duration ts).1 =
        "⚠️ Backup Check Alert - " ++ toString (results.length - success_count results) ++
          "/" ++ toString results.length ++ " Failed") ∧
    (results.length - success_count results = 0 →
      (create_email_content results duration ts).1 =
        "✅ Backup Check Success - All " ++ toString results.length ++ " Passed") ∧
    results.length - success_count results = failure_count results ∧
    (failure_count results = 0 → email_summary_section results = []) ∧
    (0 < failure_count results →
      email_summary_section results =
        ["FAILED BACKUPS SUMMARY", sep50] ++
          (results.filter (fun r => !r.success)).map
            (fun r => "• " ++ r.name ++ ": " ++ r.error.getD "Unknown error") ++ [""]) ∧
    (∀ r ∈ results, r.success = false →
      strContains (create_email_content results duration ts).2
        ("• " ++ r.name ++ ": " ++ r.error.getD "Unknown error")) := by
  have hlink : results.length - success_count results = failure_count results := by
    have h := success_count_add_failure_count results
    omega
  refine ⟨?_, ?_, hlink, ?_, ?_, ?_⟩
  · intro h
    simp [create_email_content, h]
  · intro h
    simp [create_email_content, h]
  · intro h0
    have hz : results.length - success_count results = 0 := by omega
    simp [email_summary_section, hz]
  · intro hpos
    have hp : 0 < results.length - success_count results := by omega
    simp [email_summary_section, hp, email_failed_lines_eq]
  · intro r hr hfail
    have hrf : r ∈ results.filter (fun x => !x.success) :=
      List.mem_filter.mpr ⟨hr, by simp [hfail]⟩
    have hline : ("• " ++ r.name ++ ": " ++ r.error.getD "Unknown error") ∈
        email_failed_lines results := by
      rw [email_failed_lines_eq]
      exact List.mem_map_of_mem _ hrf
    have hfc : 0 < failure_count results := by
      have hne : results.filter (fun x => !x.success) ≠ [] := List.ne_nil_of_mem hrf
      have := List.length_pos.mpr hne
      simpa [failure_count] using this
    have hsec : ("• " ++ r.name ++ ": " ++ r.error.getD "Unknown error") ∈
        email_summary_section results := by
      have hp : 0 < results.length - success_count results := by omega
      simp only [email_summary_section, hp, if_pos]
      exact List.mem_append_left _ (List.mem_append_right _ hline)
    have hmem : ("• " ++ r.name ++ ": " ++ r.error.getD "Unknown error") ∈
        email_lines results duration ts := by
      unfold email_lines
      exact List.mem_append_left _ (List.mem_append_right _ hsec)
    show strContains (joinWith "\n" (email_lines results duration ts)) _
    exact strContains_joinWith _ _ _ hmem

/-- Witness for C9: the failed-summary entry of the one failed target is
contained in the concrete email body. -/
theorem C9_email_subject_and_summary_witness :
    strContains
      (create_email_content (run_all_checks (Except.ok 1024) [(cfgA, envInaccessible)])
        2 "2026-10-12 06:00:00").2
      ("• " ++ (runTarget (Except.ok 1024) cfgA envInaccessible).name ++ ": " ++
        (runTarget (Except.ok 1024) cfgA envInaccessible).error.getD "Unknown error") := by
  have hc := (C9_email_subject_and_summary
    (run_all_checks (Except.ok 1024) [(cfgA, envInaccessible)]) 2
    "2026-10-12 06:00:00").2.2.2.2.2
  exact hc (runTarget (Except.ok 1024) cfgA envInaccessible)
    (List.mem_singleton_self _) (by decide)

/-- The space record of a probed 1000-byte disk with 5 bytes used and 994
free (one reserved byte), as `check_free_space` stores it. -/
def siReserve : SpaceInfo :=
  { total_bytes := 1000, used_bytes := 5, free_bytes := 994,
    total_human := bytes_to_human_readable 1000,
    used_human := bytes_to_human_readable 5,
    free_human := bytes_to_human_readable 994,
    min_required_human := bytes_to_human_readable 0,
    usage_percent := pyRound1 ((5 : ℚ) / (1000 : ℚ) * 100) }

/-- A successful result carrying `siReserve` as its space record. -/
def rReserve : CheckResult :=
  { name := "vm-101", backup_dir := "/mnt/backups/vm-101", success := true,
    errors := [], warnings := [], space := some siReserve, backup := none,
    error := none }

/-- C10: the email body derives the displayed free percentage as one hundred
minus the stored usage percent (which was rounded before the subtraction),
not as an independent `round(free / total * 100, 1)`; the two derivations
can disagree in the last decimal. -/
theorem C10_free_percent_derivation :
    (∀ (i : Nat) (r : CheckResult) (si : SpaceInfo), r.space = some si →
      email_space_line si ∈ email_result_block i r) ∧
    (∀ si : SpaceInfo, email_space_line si =
      "   Free space: " ++ si.free_human ++ " (" ++ fmtFixed1 (100 - si.usage_percent) ++
        "% free)") ∧
    (∀ (dir : String) (m total used free : Nat) (si : SpaceInfo),
      (check_free_space dir (Except.ok m) (Except.ok (total, used, free))).2.2 = some si →
      0 < total →
      si.usage_percent = pyRound1 ((used : ℚ) / (total : ℚ) * 100)) ∧
    (∃ (dir : String) (m total used free : Nat) (si : SpaceInfo),
      (check_free_space dir (Except.ok m) (Except.ok (total, used, free))).2.2 = some si ∧
      used + free ≤ total ∧
      100 - si.usage_percent ≠ pyRound1 ((free : ℚ) / (total : ℚ) * 100)) := by
  refine ⟨?_, fun si => rfl, ?_, ?_⟩
  · intro i r si h
    simp [email_result_block, h]
  · intro dir m total used free si h hpos
    have hsome : (check_free_space dir (Except.ok m) (Except.ok (total, used, free))).2.2 =
        some { total_bytes := total, used_bytes := used, free_bytes := free,
               total_human := bytes_to_human_readable total,
               used_human := bytes_to_human_readable used,
               free_human := bytes_to_human_readable free,
               min_required_human := bytes_to_human_readable m,
               usage_percent :=
                 if 0 < total then pyRound1 ((used : ℚ) / (total : ℚ) * 100) else 0 } := by
      by_cases hs : m ≤ free <;> simp [check_free_space, check_minimum_free_space, hs]
    rw [hsome] at h
    have hsi := Option.some.inj h
    rw [← hsi]
    simp [hpos]
  · refine ⟨"/mnt/backups/vm-101", 0, 1000, 5, 994, siReserve, rfl, by norm_num, ?_⟩
    have e1 : pyRound1 ((5 : ℚ) / (1000 : ℚ) * 100) = ((5 : ℤ) : ℚ) / 10 :=
      pyRound1_eq_of_mul_ten _ 5 (by norm_num)
    have e2 : pyRound1 ((994 : ℚ) / (1000 : ℚ) * 100) = ((994 : ℤ) : ℚ) / 10 :=
      pyRound1_eq_of_mul_ten _ 994 (by norm_num)
    show 100 - siReserve.usage_percent ≠ pyRound1 ((994 : ℚ) / (1000 : ℚ) * 100)
    rw [show siReserve.usage_percent = pyRound1 ((5 : ℚ) / (1000 : ℚ) * 100) from rfl,
      e1, e2]
    norm_num

/-- Witness for C10: the rendered free-space line of the concrete reserved
disk appears in its detail block. -/
theorem C10_free_percent_derivation_witness :
    email_space_line siReserve ∈ email_result_block 0 rReserve :=
  C10_free_percent_derivation.1 0 rReserve siReserve rfl
